import Mathlib

/-!
Shallow embedding of the `handleCreateReservation` request handler from
`task12/app/lambdas/api_handler/index.js` (the reservation conflict checker),
together with theorems settling the specification claims about it.

Times and dates are the JavaScript strings of the source, compared with the
lexicographic string order (the order DynamoDB uses for string `BETWEEN`).
The DynamoDB document-client calls are modelled as pure operations on an
explicit store state; the `uuidv4()` identifier and the `new Date()`
timestamp are inputs of the model.
-/

/-- A row of the tables table (`TABLES_TABLE`), as written by
`handleCreateTable`: `{ id, number, places, isVip, minOrder }`. -/
structure Table where
  id : String
  number : Nat
  places : Nat
  isVip : Bool
  minOrder : Nat
deriving DecidableEq, Repr

/-- A row of the reservations table (`RESERVATIONS_TABLE`), exactly the item
built at the end of `handleCreateReservation`: the reservation start time is
stored under the attribute `time`, the end under `slotTimeEnd`.  `clientName`
and `phoneNumber` are optional request fields and may be absent. -/
structure Reservation where
  id : String
  tableId : String
  tableNumber : Nat
  clientName : Option String
  phoneNumber : Option String
  username : String
  date : String
  time : String
  slotTimeEnd : String
  createdAt : String
deriving DecidableEq, Repr

/-- The two DynamoDB tables the handler touches. -/
structure St where
  tables : List Table
  reservations : List Reservation
deriving DecidableEq, Repr

/-- Response bodies produced by `handleCreateReservation` (after
`JSON.stringify`): either `{ message }` or
`{ reservationId, message }`. -/
inductive RespBody where
  | msg (message : String)
  | created (reservationId : String) (message : String)
deriving DecidableEq, Repr

/-- An HTTP response as built by `formatResponse`: status code plus body
(the constant CORS headers are omitted from the model). -/
structure Resp where
  statusCode : Nat
  body : RespBody
deriving DecidableEq, Repr

/-- `formatResponse(statusCode, body)`. -/
def formatResponse (statusCode : Nat) (body : RespBody) : Resp :=
  { statusCode := statusCode, body := body }

/-- The store calls the handler can issue, in order of execution: the table
scan filtered by number, the reservation scan filtered by
table/date/overlap, and the final put. -/
inductive DbAction where
  | scanTables (tableNumber : Nat)
  | scanReservations (tableId date slotTimeStart slotTimeEnd : String)
  | putReservation (r : Reservation)
deriving DecidableEq, Repr

/-- The parsed JSON body of a create-reservation request.  Each field is
optional: `none` models an absent (undefined) JSON field. -/
structure ReservationReq where
  tableNumber : Option Nat
  clientName : Option String
  phoneNumber : Option String
  date : Option String
  slotTimeStart : Option String
  slotTimeEnd : Option String
deriving DecidableEq, Repr

/-- JavaScript truthiness test `!x` for a numeric field: absent (`undefined`)
and `0` are falsy. -/
def numFalsy : Option Nat → Bool
  | none => true
  | some n => n == 0

/-- JavaScript truthiness test `!x` for a string field: absent (`undefined`)
and the empty string are falsy. -/
def strFalsy : Option String → Bool
  | none => true
  | some s => s == ""

/-- The guard `!tableNumber || !date || !slotTimeStart || !slotTimeEnd`. -/
def requiredMissing (b : ReservationReq) : Bool :=
  numFalsy b.tableNumber || strFalsy b.date || strFalsy b.slotTimeStart ||
    strFalsy b.slotTimeEnd

/-- Lexicographic comparison of character lists by code point, the order the
string store uses for `BETWEEN` on string attributes. -/
def charListLe : List Char → List Char → Bool
  | [], _ => true
  | _ :: _, [] => false
  | a :: as, b :: bs =>
    if a.toNat < b.toNat then true
    else if b.toNat < a.toNat then false
    else charListLe as bs

/-- String comparison `a <= b` as DynamoDB evaluates it on string
attributes: lexicographic on the characters. -/
def strLe (a b : String) : Bool := charListLe a.data b.data

/-- The table scan with `FilterExpression: "#num = :tableNumber"`: all table
rows whose `number` equals the requested one, in store order. -/
def tablesMatching (n : Nat) (ts : List Table) : List Table :=
  ts.filter (fun t => t.number == n)

/-- The reservation-scan filter
`tableId = :tableId AND #date = :date AND
 (#time BETWEEN :start AND :end OR :start BETWEEN #time AND slotTimeEnd)`
applied to one stored reservation `r`, where `:start`/`:end` are the
candidate's `slotTimeStart`/`slotTimeEnd` and `#time`/`slotTimeEnd` are the
stored row's start/end attributes. -/
def conflictFilter (tid d st en : String) (r : Reservation) : Bool :=
  r.tableId == tid && r.date == d &&
    ((strLe st r.time && strLe r.time en) ||
     (strLe r.time st && strLe st r.slotTimeEnd))

/-- The reservation scan: every stored reservation passing
`conflictFilter`. -/
def conflictScan (tid d st en : String) (rs : List Reservation) :
    List Reservation :=
  rs.filter (conflictFilter tid d st en)

/-- The specification's overlap predicate on one existing reservation `r`
against a candidate slot `[st, en]`:
`existing.start <= candidate.end AND candidate.start <= existing.end`. -/
def specOverlap (st en : String) (r : Reservation) : Bool :=
  strLe r.time en && strLe st r.slotTimeEnd

/-- The reservation item assembled on the success path. -/
def buildReservation (freshId tid : String) (tableNumber : Nat)
    (b : ReservationReq) (user d st en now : String) : Reservation :=
  { id := freshId
    tableId := tid
    tableNumber := tableNumber
    clientName := b.clientName
    phoneNumber := b.phoneNumber
    username := user
    date := d
    time := st
    slotTimeEnd := en
    createdAt := now }

/-- `dynamodb.put`: DynamoDB put upserts by primary key `id` — it replaces
an existing row with the same `id`, otherwise appends the new row. -/
def putItem (rs : List Reservation) (r : Reservation) : List Reservation :=
  if rs.any (fun x => x.id == r.id) then
    rs.map (fun x => if x.id == r.id then r else x)
  else rs ++ [r]

/-- Result of one handler run: the HTTP response, the store calls issued (in
order), and the store state afterwards. -/
structure HResult where
  resp : Resp
  actions : List DbAction
  state : St
deriving DecidableEq, Repr

/-- Shallow embedding of `handleCreateReservation`.  `username` is what
`getUsernameFromToken` returns (`none` = null), `rawBody` is the result of
`JSON.parse(event.body)` (`none` = parse throw, caught by the surrounding
`try` as a 500), `freshId` is the `uuidv4()` value and `now` the
`new Date().toISOString()` value of this run. -/
def handleCreateReservation (username : Option String)
    (rawBody : Option ReservationReq) (freshId now : String) (s : St) :
    HResult :=
  match username with
  | none => ⟨formatResponse 401 (.msg "Unauthorized"), [], s⟩
  | some user =>
    match rawBody with
    | none => ⟨formatResponse 500 (.msg "Internal Server Error"), [], s⟩
    | some body =>
      if requiredMissing body then
        ⟨formatResponse 400
          (.msg "Table number, date, slotTimeStart, and slotTimeEnd are required"),
         [], s⟩
      else
        let n := body.tableNumber.getD 0
        let d := body.date.getD ""
        let st := body.slotTimeStart.getD ""
        let en := body.slotTimeEnd.getD ""
        match tablesMatching n s.tables with
        | [] => ⟨formatResponse 400 (.msg "Table not found"), [.scanTables n], s⟩
        | table :: _ =>
          let conflicts := conflictScan table.id d st en s.reservations
          if conflicts.length > 0 then
            ⟨formatResponse 400
              (.msg "Table is already reserved for the selected date and time"),
             [.scanTables n, .scanReservations table.id d st en], s⟩
          else
            let reservation :=
              buildReservation freshId table.id table.number body user d st en now
            ⟨formatResponse 200
              (.created freshId "Reservation created successfully"),
             [.scanTables n, .scanReservations table.id d st en,
              .putReservation reservation],
             ⟨s.tables, putItem s.reservations reservation⟩⟩

/-! ### Concrete fixtures for the scenario theorems -/

/-- Table number 5 of the specification scenarios. -/
def table5 : Table :=
  { id := "t1", number := 5, places := 4, isVip := false, minOrder := 0 }

/-- A stored reservation on `table5` for `2024-06-01` with the given start
and end times. -/
def storedRes (st en : String) : Reservation :=
  { id := "r1", tableId := "t1", tableNumber := 5,
    clientName := some "Client", phoneNumber := some "555",
    username := "alice", date := "2024-06-01", time := st,
    slotTimeEnd := en, createdAt := "2024-05-01T00:00:00Z" }

/-- A create-reservation request body for `table5` on `2024-06-01` with the
given slot times. -/
def reqBody (st en : String) : ReservationReq :=
  { tableNumber := some 5, clientName := none, phoneNumber := none,
    date := some "2024-06-01", slotTimeStart := some st,
    slotTimeEnd := some en }

/-- The record persisted by the first witness run (18:00–19:00). -/
def recA : Reservation :=
  buildReservation "uuid-A" "t1" 5 (reqBody "18:00" "19:00") "alice"
    "2024-06-01" "18:00" "19:00" "2024-05-02T00:00:00Z"

/-- The record persisted by the second witness run (20:00–21:00). -/
def recB : Reservation :=
  buildReservation "uuid-B" "t1" 5 (reqBody "20:00" "21:00") "bob"
    "2024-06-01" "20:00" "21:00" "2024-05-03T00:00:00Z"

/-! ### Order lemmas for the string comparison -/

theorem charListLe_total : ∀ (a b : List Char),
    charListLe a b = true ∨ charListLe b a = true
  | [], _ => Or.inl rfl
  | _ :: _, [] => Or.inr rfl
  | x :: xs, y :: ys => by
    simp only [charListLe]
    rcases charListLe_total xs ys with h | h <;> split_ifs <;> simp [h]

theorem strLe_total (a b : String) : strLe a b = true ∨ strLe b a = true :=
  charListLe_total a.data b.data

theorem charListLe_trans : ∀ (a b c : List Char),
    charListLe a b = true → charListLe b c = true → charListLe a c = true
  | [], _, _, _, _ => rfl
  | _ :: _, [], _, hab, _ => by simp [charListLe] at hab
  | _ :: _, _ :: _, [], _, hbc => by simp [charListLe] at hbc
  | x :: xs, y :: ys, z :: zs, hab, hbc => by
    simp only [charListLe] at hab hbc ⊢
    split_ifs at hab hbc ⊢ <;>
      first
      | rfl
      | exact charListLe_trans xs ys zs hab hbc
      | (exfalso; omega)

theorem strLe_trans (a b c : String) (hab : strLe a b = true)
    (hbc : strLe b c = true) : strLe a c = true :=
  charListLe_trans a.data b.data c.data hab hbc

/-! ### Bridging the scan filter and the specification predicate -/

/-- The specification's overlap predicate implies the source's scan filter
on any stored reservation with matching table and date; this direction
holds for every input, well-formed or not. -/
theorem specOverlap_imp_conflictFilter (tid d st en : String)
    (r : Reservation) (ht : r.tableId = tid) (hd : r.date = d)
    (h : specOverlap st en r = true) : conflictFilter tid d st en r = true := by
  simp only [specOverlap, Bool.and_eq_true] at h
  simp only [conflictFilter, ht, hd, beq_self_eq_true, Bool.and_eq_true,
    Bool.or_eq_true, true_and]
  rcases strLe_total st r.time with hst | hst
  · exact Or.inl ⟨hst, h.1⟩
  · exact Or.inr ⟨hst, h.2⟩

/-- For well-formed intervals (`start ≤ end` on both the stored row and the
candidate) the source's scan filter agrees exactly with the
specification's overlap predicate. -/
theorem conflictFilter_eq_spec (tid d st en : String) (r : Reservation)
    (hr : strLe r.time r.slotTimeEnd = true) (hc : strLe st en = true) :
    conflictFilter tid d st en r =
      (r.tableId == tid && r.date == d && specOverlap st en r) := by
  have hAD : strLe st r.time = true → strLe st r.slotTimeEnd = true :=
    fun h => strLe_trans _ _ _ h hr
  have hCB : strLe r.time st = true → strLe r.time en = true :=
    fun h => strLe_trans _ _ _ h hc
  have htot := strLe_total st r.time
  simp only [conflictFilter, specOverlap]
  rcases hA : strLe st r.time with _ | _ <;>
    rcases hB : strLe r.time en with _ | _ <;>
      rcases hC : strLe r.time st with _ | _ <;>
        rcases hD : strLe st r.slotTimeEnd with _ | _ <;>
          simp_all

/-! ### Branch evaluation lemmas for the handler -/

theorem run_required (user : String) (body : ReservationReq)
    (freshId now : String) (s : St) (hreq : requiredMissing body = true) :
    handleCreateReservation (some user) (some body) freshId now s =
      ⟨formatResponse 400
        (.msg "Table number, date, slotTimeStart, and slotTimeEnd are required"),
       [], s⟩ := by
  simp [handleCreateReservation, hreq]

theorem run_notFound (user : String) (body : ReservationReq)
    (freshId now : String) (s : St) (hreq : requiredMissing body = false)
    (htm : tablesMatching (body.tableNumber.getD 0) s.tables = []) :
    handleCreateReservation (some user) (some body) freshId now s =
      ⟨formatResponse 400 (.msg "Table not found"),
       [.scanTables (body.tableNumber.getD 0)], s⟩ := by
  simp [handleCreateReservation, hreq, htm]

theorem run_conflict (user : String) (body : ReservationReq)
    (freshId now : String) (s : St) (table : Table) (rest : List Table)
    (hreq : requiredMissing body = false)
    (htm : tablesMatching (body.tableNumber.getD 0) s.tables = table :: rest)
    (hc : conflictScan table.id (body.date.getD "") (body.slotTimeStart.getD "")
      (body.slotTimeEnd.getD "") s.reservations ≠ []) :
    handleCreateReservation (some user) (some body) freshId now s =
      ⟨formatResponse 400
        (.msg "Table is already reserved for the selected date and time"),
       [.scanTables (body.tableNumber.getD 0),
        .scanReservations table.id (body.date.getD "")
          (body.slotTimeStart.getD "") (body.slotTimeEnd.getD "")], s⟩ := by
  have hlen : 0 < (conflictScan table.id (body.date.getD "")
      (body.slotTimeStart.getD "") (body.slotTimeEnd.getD "")
      s.reservations).length := List.length_pos.mpr hc
  simp [handleCreateReservation, hreq, htm, hlen]

theorem run_success (user : String) (body : ReservationReq)
    (freshId now : String) (s : St) (table : Table) (rest : List Table)
    (hreq : requiredMissing body = false)
    (htm : tablesMatching (body.tableNumber.getD 0) s.tables = table :: rest)
    (hc : conflictScan table.id (body.date.getD "") (body.slotTimeStart.getD "")
      (body.slotTimeEnd.getD "") s.reservations = []) :
    handleCreateReservation (some user) (some body) freshId now s =
      ⟨formatResponse 200 (.created freshId "Reservation created successfully"),
       [.scanTables (body.tableNumber.getD 0),
        .scanReservations table.id (body.date.getD "")
          (body.slotTimeStart.getD "") (body.slotTimeEnd.getD ""),
        .putReservation (buildReservation freshId table.id table.number body
          user (body.date.getD "") (body.slotTimeStart.getD "")
          (body.slotTimeEnd.getD "") now)],
       ⟨s.tables, putItem s.reservations (buildReservation freshId table.id
          table.number body user (body.date.getD "")
          (body.slotTimeStart.getD "") (body.slotTimeEnd.getD "") now)⟩⟩ := by
  simp [handleCreateReservation, hreq, htm, hc]

/-- When the generated identifier is not already present (the `uuidv4()`
freshness assumption), the DynamoDB put appends the new row. -/
theorem putItem_fresh (rs : List Reservation) (r : Reservation)
    (h : ∀ x ∈ rs, x.id ≠ r.id) : putItem rs r = rs ++ [r] := by
  have hany : rs.any (fun x => x.id == r.id) = false := by
    simp only [List.any_eq_false]
    intro x hx
    simpa using h x hx
  simp [putItem, hany]

/-- Inversion: a 200 response forces the success path — the table resolved
to the first scan match, the conflict scan came back empty, and the state
afterwards is the put of the newly built reservation. -/
theorem success_run_shape (user : String) (body : ReservationReq)
    (freshId now : String) (s : St)
    (h200 : (handleCreateReservation (some user) (some body) freshId now
      s).resp.statusCode = 200) :
    ∃ table rest,
      tablesMatching (body.tableNumber.getD 0) s.tables = table :: rest ∧
      conflictScan table.id (body.date.getD "") (body.slotTimeStart.getD "")
        (body.slotTimeEnd.getD "") s.reservations = [] ∧
      (handleCreateReservation (some user) (some body) freshId now s).state =
        ⟨s.tables, putItem s.reservations (buildReservation freshId table.id
          table.number body user (body.date.getD "")
          (body.slotTimeStart.getD "") (body.slotTimeEnd.getD "") now)⟩ := by
  rcases hreq : requiredMissing body with _ | _
  · rcases htm : tablesMatching (body.tableNumber.getD 0) s.tables with
      _ | ⟨table, rest⟩
    · rw [run_notFound user body freshId now s hreq htm] at h200
      simp [formatResponse] at h200
    · by_cases hc : conflictScan table.id (body.date.getD "")
        (body.slotTimeStart.getD "") (body.slotTimeEnd.getD "")
        s.reservations = []
      · exact ⟨table, rest, rfl, hc,
          by rw [run_success user body freshId now s table rest hreq htm hc]⟩
      · rw [run_conflict user body freshId now s table rest hreq htm hc]
          at h200
        simp [formatResponse] at h200
  · rw [run_required user body freshId now s hreq] at h200
    simp [formatResponse] at h200

/-! ### Claim theorems -/

/-- C3: two reservations on the same table and date sharing an exact
boundary instant conflict.  Against a stored 18:00–19:00 reservation a
candidate 19:00–20:00 is rejected with the conflict response, and
symmetrically a candidate 18:00–19:00 ending exactly at a stored
19:00–20:00 reservation's start is rejected as well. -/
theorem boundary_touch_is_conflict :
    (handleCreateReservation (some "bob") (some (reqBody "19:00" "20:00"))
      "uuid-C" "2024-05-03T00:00:00Z"
      ⟨[table5], [storedRes "18:00" "19:00"]⟩).resp =
      formatResponse 400
        (.msg "Table is already reserved for the selected date and time") ∧
    (handleCreateReservation (some "bob") (some (reqBody "18:00" "19:00"))
      "uuid-C" "2024-05-03T00:00:00Z"
      ⟨[table5], [storedRes "19:00" "20:00"]⟩).resp =
      formatResponse 400
        (.msg "Table is already reserved for the selected date and time") := by
  constructor <;> decide

/-- C4: whenever the conflict scan finds at least one matching existing
reservation, the handler returns HTTP 400 with the message "Table is
already reserved for the selected date and time", issues no put, and
leaves the reservation store exactly as it was. -/
theorem conflict_rejected_without_write (user : String)
    (body : ReservationReq) (freshId now : String) (s : St) (table : Table)
    (rest : List Table) (hreq : requiredMissing body = false)
    (htm : tablesMatching (body.tableNumber.getD 0) s.tables = table :: rest)
    (hc : conflictScan table.id (body.date.getD "")
      (body.slotTimeStart.getD "") (body.slotTimeEnd.getD "")
      s.reservations ≠ []) :
    (handleCreateReservation (some user) (some body) freshId now s).resp =
      formatResponse 400
        (.msg "Table is already reserved for the selected date and time") ∧
    (handleCreateReservation (some user) (some body) freshId now
      s).state.reservations = s.reservations ∧
    ∀ r : Reservation, DbAction.putReservation r ∉
      (handleCreateReservation (some user) (some body) freshId now
        s).actions := by
  rw [run_conflict user body freshId now s table rest hreq htm hc]
  refine ⟨rfl, rfl, ?_⟩
  intro r
  simp

/-- Witness for C4 at scenario 2 of the specification: candidate
18:30–19:30 against a stored 18:00–19:00 reservation. -/
theorem conflict_rejected_without_write_witness :
    (handleCreateReservation (some "bob") (some (reqBody "18:30" "19:30"))
      "uuid-C" "2024-05-03T00:00:00Z"
      ⟨[table5], [storedRes "18:00" "19:00"]⟩).resp =
      formatResponse 400
        (.msg "Table is already reserved for the selected date and time") ∧
    (handleCreateReservation (some "bob") (some (reqBody "18:30" "19:30"))
      "uuid-C" "2024-05-03T00:00:00Z"
      ⟨[table5], [storedRes "18:00" "19:00"]⟩).state.reservations =
      [storedRes "18:00" "19:00"] ∧
    ∀ r : Reservation, DbAction.putReservation r ∉
      (handleCreateReservation (some "bob") (some (reqBody "18:30" "19:30"))
        "uuid-C" "2024-05-03T00:00:00Z"
        ⟨[table5], [storedRes "18:00" "19:00"]⟩).actions :=
  conflict_rejected_without_write "bob" (reqBody "18:30" "19:30") "uuid-C"
    "2024-05-03T00:00:00Z" ⟨[table5], [storedRes "18:00" "19:00"]⟩ table5 []
    (by decide) (by decide) (by decide)

/-- C5: when the table scan by number matches no table, the handler
returns HTTP 400 with message "Table not found", and its only store call
is that table scan — it neither scans the reservations nor writes, and
the state is unchanged. -/
theorem table_not_found_rejected (user : String) (body : ReservationReq)
    (freshId now : String) (s : St) (hreq : requiredMissing body = false)
    (htm : tablesMatching (body.tableNumber.getD 0) s.tables = []) :
    handleCreateReservation (some user) (some body) freshId now s =
      ⟨formatResponse 400 (.msg "Table not found"),
       [.scanTables (body.tableNumber.getD 0)], s⟩ :=
  run_notFound user body freshId now s hreq htm

/-- Witness for C5: scenario 4, a request for table number 7 against a
store knowing only table number 5. -/
theorem table_not_found_rejected_witness :
    handleCreateReservation (some "bob")
      (some { reqBody "18:00" "19:00" with tableNumber := some 7 })
      "uuid-C" "2024-05-03T00:00:00Z" ⟨[table5], []⟩ =
      ⟨formatResponse 400 (.msg "Table not found"), [.scanTables 7],
       ⟨[table5], []⟩⟩ :=
  table_not_found_rejected "bob"
    { reqBody "18:00" "19:00" with tableNumber := some 7 } "uuid-C"
    "2024-05-03T00:00:00Z" ⟨[table5], []⟩ (by decide) (by decide)

/-- C6: a request missing any of the required fields `tableNumber`,
`date`, `slotTimeStart`, `slotTimeEnd` is answered with HTTP 400 and the
required-fields message before any store call: the action list is empty
and the state unchanged. -/
theorem missing_required_field_rejected (user : String)
    (body : ReservationReq) (freshId now : String) (s : St)
    (h : body.tableNumber = none ∨ body.date = none ∨
      body.slotTimeStart = none ∨ body.slotTimeEnd = none) :
    handleCreateReservation (some user) (some body) freshId now s =
      ⟨formatResponse 400
        (.msg "Table number, date, slotTimeStart, and slotTimeEnd are required"),
       [], s⟩ := by
  apply run_required
  rcases h with h | h | h | h <;>
    simp [requiredMissing, numFalsy, strFalsy, h]

/-- Witness for C6: scenario 5, a request with no `date` field. -/
theorem missing_required_field_rejected_witness :
    handleCreateReservation (some "bob")
      (some { reqBody "18:00" "19:00" with date := none }) "uuid-C"
      "2024-05-03T00:00:00Z" ⟨[table5], []⟩ =
      ⟨formatResponse 400
        (.msg "Table number, date, slotTimeStart, and slotTimeEnd are required"),
       [], ⟨[table5], []⟩⟩ :=
  missing_required_field_rejected "bob"
    { reqBody "18:00" "19:00" with date := none } "uuid-C"
    "2024-05-03T00:00:00Z" ⟨[table5], []⟩ (Or.inr (Or.inl rfl))

/-- C9: because the presence check uses JavaScript truthiness, a request
whose `tableNumber` is the number 0, or whose `date`, `slotTimeStart` or
`slotTimeEnd` is the empty string, gets exactly the same HTTP 400
required-fields result — empty action list, unchanged state — as a
request in which the field is absent. -/
theorem falsy_field_rejected_as_missing (user : String)
    (body : ReservationReq) (freshId now : String) (s : St)
    (h : body.tableNumber = some 0 ∨ body.date = some "" ∨
      body.slotTimeStart = some "" ∨ body.slotTimeEnd = some "") :
    handleCreateReservation (some user) (some body) freshId now s =
      ⟨formatResponse 400
        (.msg "Table number, date, slotTimeStart, and slotTimeEnd are required"),
       [], s⟩ := by
  apply run_required
  rcases h with h | h | h | h <;>
    simp [requiredMissing, numFalsy, strFalsy, h]

/-- Witness for C9: a request for table number 0. -/
theorem falsy_field_rejected_as_missing_witness :
    handleCreateReservation (some "bob")
      (some { reqBody "18:00" "19:00" with tableNumber := some 0 }) "uuid-C"
      "2024-05-03T00:00:00Z" ⟨[table5], []⟩ =
      ⟨formatResponse 400
        (.msg "Table number, date, slotTimeStart, and slotTimeEnd are required"),
       [], ⟨[table5], []⟩⟩ :=
  falsy_field_rejected_as_missing "bob"
    { reqBody "18:00" "19:00" with tableNumber := some 0 } "uuid-C"
    "2024-05-03T00:00:00Z" ⟨[table5], []⟩ (Or.inl rfl)

/-- C7: on an authorized, fully-populated request whose table number
resolves and whose conflict scan is empty, the handler appends exactly one
new reservation carrying the freshly generated identifier and the creation
timestamp, and answers HTTP 200 with body
`{ reservationId: <that identifier>, message: "Reservation created
successfully" }`. -/
theorem success_persists_exactly_one (user : String)
    (body : ReservationReq) (freshId now : String) (s : St) (table : Table)
    (rest : List Table) (hreq : requiredMissing body = false)
    (htm : tablesMatching (body.tableNumber.getD 0) s.tables = table :: rest)
    (hc : conflictScan table.id (body.date.getD "")
      (body.slotTimeStart.getD "") (body.slotTimeEnd.getD "")
      s.reservations = [])
    (hfresh : ∀ r ∈ s.reservations, r.id ≠ freshId) :
    ∃ rec : Reservation,
      (handleCreateReservation (some user) (some body) freshId now
        s).state.reservations = s.reservations ++ [rec] ∧
      rec.id = freshId ∧ rec.createdAt = now ∧
      (handleCreateReservation (some user) (some body) freshId now s).resp =
        formatResponse 200
          (.created rec.id "Reservation created successfully") := by
  refine ⟨buildReservation freshId table.id table.number body user
    (body.date.getD "") (body.slotTimeStart.getD "")
    (body.slotTimeEnd.getD "") now, ?_, rfl, rfl, ?_⟩ <;>
    rw [run_success user body freshId now s table rest hreq htm hc]
  · exact putItem_fresh s.reservations _ (by
      intro x hx
      simpa [buildReservation] using hfresh x hx)
  · rfl

/-- Witness for C7 at scenario 1 of the specification: table 5 exists and
the store holds no reservation. -/
theorem success_persists_exactly_one_witness :
    ∃ rec : Reservation,
      (handleCreateReservation (some "alice")
        (some (reqBody "18:00" "19:00")) "uuid-A" "2024-05-02T00:00:00Z"
        ⟨[table5], []⟩).state.reservations = [] ++ [rec] ∧
      rec.id = "uuid-A" ∧ rec.createdAt = "2024-05-02T00:00:00Z" ∧
      (handleCreateReservation (some "alice")
        (some (reqBody "18:00" "19:00")) "uuid-A" "2024-05-02T00:00:00Z"
        ⟨[table5], []⟩).resp =
        formatResponse 200
          (.created rec.id "Reservation created successfully") :=
  success_persists_exactly_one "alice" (reqBody "18:00" "19:00") "uuid-A"
    "2024-05-02T00:00:00Z" ⟨[table5], []⟩ table5 [] (by decide) (by decide)
    (by decide) (by decide)

/-- C10: the handler never mutates or deletes a pre-existing record — on
every execution path the tables table is returned unchanged and the
reservation store is either unchanged or extended by exactly one appended
record, provided the generated identifier is fresh (the `uuidv4()`
assumption under which the put cannot replace an old row). -/
theorem frame_no_mutation (username : Option String)
    (rawBody : Option ReservationReq) (freshId now : String) (s : St)
    (hfresh : ∀ r ∈ s.reservations, r.id ≠ freshId) :
    (handleCreateReservation username rawBody freshId now s).state.tables =
      s.tables ∧
    ((handleCreateReservation username rawBody freshId now
        s).state.reservations = s.reservations ∨
      ∃ rec : Reservation,
        (handleCreateReservation username rawBody freshId now
          s).state.reservations = s.reservations ++ [rec]) := by
  rcases username with _ | user
  · exact ⟨rfl, Or.inl rfl⟩
  rcases rawBody with _ | body
  · exact ⟨rfl, Or.inl rfl⟩
  rcases hreq : requiredMissing body with _ | _
  · rcases htm : tablesMatching (body.tableNumber.getD 0) s.tables with
      _ | ⟨table, rest⟩
    · rw [run_notFound user body freshId now s hreq htm]
      exact ⟨rfl, Or.inl rfl⟩
    · by_cases hc : conflictScan table.id (body.date.getD "")
        (body.slotTimeStart.getD "") (body.slotTimeEnd.getD "")
        s.reservations = []
      · rw [run_success user body freshId now s table rest hreq htm hc]
        refine ⟨rfl, Or.inr ⟨buildReservation freshId table.id table.number
          body user (body.date.getD "") (body.slotTimeStart.getD "")
          (body.slotTimeEnd.getD "") now, ?_⟩⟩
        exact putItem_fresh s.reservations _ (by
          intro x hx
          simpa [buildReservation] using hfresh x hx)
      · rw [run_conflict user body freshId now s table rest hreq htm hc]
        exact ⟨rfl, Or.inl rfl⟩
  · rw [run_required user body freshId now s hreq]
    exact ⟨rfl, Or.inl rfl⟩

/-- Witness for C10 at a state with one stored reservation and a fresh
identifier. -/
theorem frame_no_mutation_witness :
    (handleCreateReservation (some "bob") (some (reqBody "18:30" "19:30"))
      "uuid-C" "2024-05-03T00:00:00Z"
      ⟨[table5], [storedRes "18:00" "19:00"]⟩).state.tables = [table5] ∧
    ((handleCreateReservation (some "bob") (some (reqBody "18:30" "19:30"))
        "uuid-C" "2024-05-03T00:00:00Z"
        ⟨[table5], [storedRes "18:00" "19:00"]⟩).state.reservations =
        [storedRes "18:00" "19:00"] ∨
      ∃ rec : Reservation,
        (handleCreateReservation (some "bob")
          (some (reqBody "18:30" "19:30")) "uuid-C" "2024-05-03T00:00:00Z"
          ⟨[table5], [storedRes "18:00" "19:00"]⟩).state.reservations =
          [storedRes "18:00" "19:00"] ++ [rec]) :=
  frame_no_mutation (some "bob") (some (reqBody "18:30" "19:30")) "uuid-C"
    "2024-05-03T00:00:00Z" ⟨[table5], [storedRes "18:00" "19:00"]⟩
    (by decide)

/-- C8: when more than one table carries the requested number, only the
first scan match matters — the response, the issued store calls and the
resulting reservation store are the same as if the first match were the
only table in the store (so the conflict check and the persisted record
use that first table's identifier). -/
theorem first_table_match_wins (user : String) (body : ReservationReq)
    (freshId now : String) (s : St) (table : Table) (rest : List Table)
    (htm : tablesMatching (body.tableNumber.getD 0) s.tables = table :: rest)
    (_hmulti : rest ≠ []) :
    (handleCreateReservation (some user) (some body) freshId now s).resp =
      (handleCreateReservation (some user) (some body) freshId now
        ⟨[table], s.reservations⟩).resp ∧
    (handleCreateReservation (some user) (some body) freshId now
      s).actions =
      (handleCreateReservation (some user) (some body) freshId now
        ⟨[table], s.reservations⟩).actions ∧
    (handleCreateReservation (some user) (some body) freshId now
      s).state.reservations =
      (handleCreateReservation (some user) (some body) freshId now
        ⟨[table], s.reservations⟩).state.reservations := by
  have hmem : table ∈ tablesMatching (body.tableNumber.getD 0) s.tables := by
    rw [htm]
    exact List.mem_cons_self table rest
  have hnum : (table.number == body.tableNumber.getD 0) = true :=
    (List.mem_filter.mp hmem).2
  have htm' : tablesMatching (body.tableNumber.getD 0) [table] = [table] := by
    simp [tablesMatching, hnum]
  rcases hreq : requiredMissing body with _ | _
  · by_cases hc : conflictScan table.id (body.date.getD "")
      (body.slotTimeStart.getD "") (body.slotTimeEnd.getD "")
      s.reservations = []
    · rw [run_success user body freshId now s table rest hreq htm hc,
        run_success user body freshId now ⟨[table], s.reservations⟩ table []
          hreq htm' hc]
      exact ⟨rfl, rfl, rfl⟩
    · rw [run_conflict user body freshId now s table rest hreq htm hc,
        run_conflict user body freshId now ⟨[table], s.reservations⟩ table []
          hreq htm' hc]
      exact ⟨rfl, rfl, rfl⟩
  · rw [run_required user body freshId now s hreq,
      run_required user body freshId now ⟨[table], s.reservations⟩ hreq]
    exact ⟨rfl, rfl, rfl⟩

/-- Witness for C8: two tables both numbered 5; the run over both equals
the run over the first alone. -/
theorem first_table_match_wins_witness :
    (handleCreateReservation (some "alice") (some (reqBody "18:00" "19:00"))
      "uuid-A" "2024-05-02T00:00:00Z"
      ⟨[table5, { table5 with id := "t2" }], []⟩).resp =
      (handleCreateReservation (some "alice")
        (some (reqBody "18:00" "19:00")) "uuid-A" "2024-05-02T00:00:00Z"
        ⟨[table5], []⟩).resp ∧
    (handleCreateReservation (some "alice") (some (reqBody "18:00" "19:00"))
      "uuid-A" "2024-05-02T00:00:00Z"
      ⟨[table5, { table5 with id := "t2" }], []⟩).actions =
      (handleCreateReservation (some "alice")
        (some (reqBody "18:00" "19:00")) "uuid-A" "2024-05-02T00:00:00Z"
        ⟨[table5], []⟩).actions ∧
    (handleCreateReservation (some "alice") (some (reqBody "18:00" "19:00"))
      "uuid-A" "2024-05-02T00:00:00Z"
      ⟨[table5, { table5 with id := "t2" }], []⟩).state.reservations =
      (handleCreateReservation (some "alice")
        (some (reqBody "18:00" "19:00")) "uuid-A" "2024-05-02T00:00:00Z"
        ⟨[table5], []⟩).state.reservations :=
  first_table_match_wins "alice" (reqBody "18:00" "19:00") "uuid-A"
    "2024-05-02T00:00:00Z" ⟨[table5, { table5 with id := "t2" }], []⟩ table5
    [{ table5 with id := "t2" }] (by decide) (by decide)

/-- C2: if reservation A is admitted and then reservation B is admitted
with the conflict scan run over a store containing A, and the two
persisted records are on the same table and date, then A's and B's
intervals do not satisfy the specification's overlap predicate
`existing.start <= candidate.end AND candidate.start <= existing.end`. -/
theorem sequential_admissions_never_overlap (uA uB : String)
    (bA bB : ReservationReq) (idA idB nowA nowB : String) (s0 s1 s2 : St)
    (a b : Reservation)
    (_hA200 : (handleCreateReservation (some uA) (some bA) idA nowA
      s0).resp.statusCode = 200)
    (_hs1 : (handleCreateReservation (some uA) (some bA) idA nowA s0).state =
      s1)
    (ha : s1.reservations = s0.reservations ++ [a])
    (hB200 : (handleCreateReservation (some uB) (some bB) idB nowB
      s1).resp.statusCode = 200)
    (hs2 : (handleCreateReservation (some uB) (some bB) idB nowB s1).state =
      s2)
    (hb : s2.reservations = s1.reservations ++ [b])
    (htid : a.tableId = b.tableId) (hdate : a.date = b.date) :
    specOverlap b.time b.slotTimeEnd a = false := by
  obtain ⟨table, rest, htm, hscan, hstate⟩ :=
    success_run_shape uB bB idB nowB s1 hB200
  rw [hs2] at hstate
  have hput : putItem s1.reservations (buildReservation idB table.id
      table.number bB uB (bB.date.getD "") (bB.slotTimeStart.getD "")
      (bB.slotTimeEnd.getD "") nowB) = s1.reservations ++ [b] := by
    rw [← hb, hstate]
  have hrecb : buildReservation idB table.id table.number bB uB
      (bB.date.getD "") (bB.slotTimeStart.getD "")
      (bB.slotTimeEnd.getD "") nowB = b := by
    by_cases hany : (s1.reservations.any (fun x =>
        x.id == (buildReservation idB table.id table.number bB uB
          (bB.date.getD "") (bB.slotTimeStart.getD "")
          (bB.slotTimeEnd.getD "") nowB).id)) = true
    · exfalso
      rw [putItem, if_pos hany] at hput
      have hl := congrArg List.length hput
      simp at hl
    · rw [putItem, if_neg hany] at hput
      have := List.append_cancel_left hput
      simpa using this
  have hamem : a ∈ s1.reservations := by
    rw [ha]
    exact List.mem_append_right _ (List.mem_cons_self a [])
  have hfa : ¬ conflictFilter table.id (bB.date.getD "")
      (bB.slotTimeStart.getD "") (bB.slotTimeEnd.getD "") a = true := by
    have hnil := hscan
    rw [conflictScan, List.filter_eq_nil_iff] at hnil
    exact hnil a hamem
  rcases hov : specOverlap b.time b.slotTimeEnd a with _ | _
  · rfl
  · exfalso
    apply hfa
    have hbtid : b.tableId = table.id := by rw [← hrecb]; rfl
    have hbdate : b.date = bB.date.getD "" := by rw [← hrecb]; rfl
    have hbtime : b.time = bB.slotTimeStart.getD "" := by rw [← hrecb]; rfl
    have hbend : b.slotTimeEnd = bB.slotTimeEnd.getD "" := by
      rw [← hrecb]; rfl
    apply specOverlap_imp_conflictFilter
    · rw [htid, hbtid]
    · rw [hdate, hbdate]
    · rw [← hbtime, ← hbend]
      exact hov

/-- Witness for C2: reservation A (18:00–19:00) is admitted, then
reservation B (20:00–21:00) is admitted over the store containing A, and
their intervals fail the overlap predicate. -/
theorem sequential_admissions_never_overlap_witness :
    (handleCreateReservation (some "alice") (some (reqBody "18:00" "19:00"))
      "uuid-A" "2024-05-02T00:00:00Z" ⟨[table5], []⟩).resp.statusCode =
      200 ∧
    (handleCreateReservation (some "bob") (some (reqBody "20:00" "21:00"))
      "uuid-B" "2024-05-03T00:00:00Z"
      ⟨[table5], [recA]⟩).resp.statusCode = 200 ∧
    specOverlap recB.time recB.slotTimeEnd recA = false :=
  ⟨by decide, by decide,
    sequential_admissions_never_overlap "alice" "bob"
      (reqBody "18:00" "19:00") (reqBody "20:00" "21:00") "uuid-A" "uuid-B"
      "2024-05-02T00:00:00Z" "2024-05-03T00:00:00Z" ⟨[table5], []⟩
      ⟨[table5], [recA]⟩ ⟨[table5], [recA, recB]⟩ recA recB (by decide)
      (by decide) (by decide) (by decide) (by decide) (by decide)
      (by decide) (by decide)⟩

/-- Counterexample to C1 as stated: with a well-formed stored reservation
13:00–15:00 and an inverted candidate 14:00–10:00 (start > end), the
handler rejects the request as a conflict although no existing
reservation with the same table and date satisfies the specification's
predicate `existing.start <= candidate.end AND candidate.start <=
existing.end` — so the claimed equivalence does not hold for all inputs. -/
theorem conflict_without_spec_overlap_cex :
    (handleCreateReservation (some "bob") (some (reqBody "14:00" "10:00"))
      "uuid-C" "2024-05-03T00:00:00Z"
      ⟨[table5], [storedRes "13:00" "15:00"]⟩).resp =
      formatResponse 400
        (.msg "Table is already reserved for the selected date and time") ∧
    ∀ r ∈ (⟨[table5], [storedRes "13:00" "15:00"]⟩ : St).reservations,
      ¬(r.tableId = table5.id ∧ r.date = "2024-06-01" ∧
        specOverlap "14:00" "10:00" r = true) := by
  constructor
  · decide
  · decide

/-- C1 (amended): after the table is resolved, the candidate is rejected
as a conflict if and only if some existing reservation with the same
tableId and date satisfies `existing.start <= candidate.end AND
candidate.start <= existing.end` (times compared as strings) — provided
the candidate's interval and every stored interval are well-formed
(start ≤ end).  Without that proviso only the if direction survives: the
code's disjunctive filter can also fire on inverted ranges, which the
specification's predicate does not capture. -/
theorem conflict_iff_spec_overlap_of_wellFormed (user : String)
    (body : ReservationReq) (freshId now : String) (s : St) (table : Table)
    (rest : List Table) (hreq : requiredMissing body = false)
    (htm : tablesMatching (body.tableNumber.getD 0) s.tables = table :: rest)
    (hcand : strLe (body.slotTimeStart.getD "")
      (body.slotTimeEnd.getD "") = true)
    (hrows : ∀ r ∈ s.reservations, strLe r.time r.slotTimeEnd = true) :
    ((handleCreateReservation (some user) (some body) freshId now s).resp =
      formatResponse 400
        (.msg "Table is already reserved for the selected date and time")) ↔
    ∃ r ∈ s.reservations, r.tableId = table.id ∧
      r.date = body.date.getD "" ∧
      specOverlap (body.slotTimeStart.getD "") (body.slotTimeEnd.getD "")
        r = true := by
  by_cases hc : conflictScan table.id (body.date.getD "")
    (body.slotTimeStart.getD "") (body.slotTimeEnd.getD "")
    s.reservations = []
  · rw [run_success user body freshId now s table rest hreq htm hc]
    constructor
    · intro h
      exact absurd h (by simp [formatResponse])
    · rintro ⟨r, hrmem, h1, h2, h3⟩
      exfalso
      have hfil := specOverlap_imp_conflictFilter table.id
        (body.date.getD "") (body.slotTimeStart.getD "")
        (body.slotTimeEnd.getD "") r h1 h2 h3
      have hmem : r ∈ conflictScan table.id (body.date.getD "")
          (body.slotTimeStart.getD "") (body.slotTimeEnd.getD "")
          s.reservations := List.mem_filter.mpr ⟨hrmem, hfil⟩
      rw [hc] at hmem
      exact List.not_mem_nil r hmem
  · rw [run_conflict user body freshId now s table rest hreq htm hc]
    constructor
    · intro _
      obtain ⟨r, hmem⟩ := List.exists_mem_of_ne_nil _ hc
      have hsplit := List.mem_filter.mp hmem
      have hfil := hsplit.2
      rw [conflictFilter_eq_spec table.id (body.date.getD "")
        (body.slotTimeStart.getD "") (body.slotTimeEnd.getD "") r
        (hrows r hsplit.1) hcand] at hfil
      simp only [Bool.and_eq_true, beq_iff_eq] at hfil
      exact ⟨r, hsplit.1, hfil.1.1, hfil.1.2, hfil.2⟩
    · intro _
      rfl

/-- Witness for the amended C1 at scenario 2: candidate 18:30–19:30
against a stored 18:00–19:00 reservation, all intervals well-formed. -/
theorem conflict_iff_spec_overlap_of_wellFormed_witness :
    ((handleCreateReservation (some "bob") (some (reqBody "18:30" "19:30"))
      "uuid-C" "2024-05-03T00:00:00Z"
      ⟨[table5], [storedRes "18:00" "19:00"]⟩).resp =
      formatResponse 400
        (.msg "Table is already reserved for the selected date and time")) ↔
    ∃ r ∈ (⟨[table5], [storedRes "18:00" "19:00"]⟩ : St).reservations,
      r.tableId = table5.id ∧ r.date = "2024-06-01" ∧
      specOverlap "18:30" "19:30" r = true :=
  conflict_iff_spec_overlap_of_wellFormed "bob" (reqBody "18:30" "19:30")
    "uuid-C" "2024-05-03T00:00:00Z" ⟨[table5], [storedRes "18:00" "19:00"]⟩
    table5 [] (by decide) (by decide) (by decide) (by decide)
